import Mathlib

/-!
Verification of the class_loader plugin-management core.

This file gives a shallow embedding of the registration-and-lifetime engine
of the class_loader library: the global factory registry, the meta-object
records and their owner lists, the per-library loader objects with their load
and instance reference counts, and the multi-library aggregator.  C++
pointers to `ClassLoader` objects are modelled as `Option Nat` (the null
pointer is `none`); `std::map` containers are modelled as association lists
kept sorted by key, matching the iteration order of the C++ container; the
heap of meta objects is a pool keyed by `Nat` identifiers so that the factory
maps and the graveyard can alias the same mutable record.  The two external
collaborators are parameters: the outcome of an OS-level library open is a
`Bool` argument, and the registration calls a library's static initializers
make during the open are passed as a list.
-/

namespace ClassLoaderProof

/-- Identifier of a live `ClassLoader` object (a non-null C++ pointer). -/
abbrev LoaderId := Nat

/-- A possibly-null `ClassLoader*` value. `none` is the null pointer. -/
abbrev LoaderPtr := Option LoaderId

/-- Association-list lookup, first binding wins (pointer-keyed containers). -/
def alistFind? {κ α : Type} [BEq κ] (k : κ) : List (κ × α) → Option α
  | [] => none
  | (k', v) :: rest => if k == k' then some v else alistFind? k rest

/-- Association-list update in place; no effect when the key is absent. -/
def alistUpdate {κ α : Type} [BEq κ] (k : κ) (v : α) : List (κ × α) → List (κ × α)
  | [] => []
  | (k', v') :: rest => if k == k' then (k, v) :: rest else (k', v') :: alistUpdate k v rest

/-- Insertion into a `std::map<std::string, A>` modelled as a key-sorted
association list: an existing binding is overwritten, a new key is placed at
its ordered position.  Keys are ordered lexicographically by character list,
matching std::less on std::string (UTF-8 byte order coincides with code
point order). -/
def smapInsert {α : Type} (k : String) (v : α) : List (String × α) → List (String × α)
  | [] => [(k, v)]
  | (k', v') :: rest =>
    if k.data < k'.data then (k, v) :: (k', v') :: rest
    else if k = k' then (k, v) :: rest
    else (k', v') :: smapInsert k v rest

/-- State of one `AbstractMetaObjectBase` (meta_object.cpp): the factory
record for one registered class.  The constructor sets the associated library
path to the sentinel "Unknown". -/
structure AbstractMetaObjectBase where
  class_name : String
  base_class_name : String
  typeid_base_class_name : String
  associated_library_path : String := "Unknown"
  associated_class_loaders : List LoaderPtr := []
deriving Repr, DecidableEq, Inhabited

/-- AbstractMetaObjectBase::addOwningClassLoader: append the loader pointer
to the owner vector unless it is already present (std::find guard). -/
def AbstractMetaObjectBase.addOwningClassLoader (m : AbstractMetaObjectBase)
    (loader : LoaderPtr) : AbstractMetaObjectBase :=
  if loader ∈ m.associated_class_loaders then m
  else { m with associated_class_loaders := m.associated_class_loaders ++ [loader] }

/-- AbstractMetaObjectBase::removeOwningClassLoader: erase the first
occurrence of the loader pointer from the owner vector, if any. -/
def AbstractMetaObjectBase.removeOwningClassLoader (m : AbstractMetaObjectBase)
    (loader : LoaderPtr) : AbstractMetaObjectBase :=
  { m with associated_class_loaders := m.associated_class_loaders.erase loader }

/-- AbstractMetaObjectBase::isOwnedBy: membership of the pointer in the owner
vector (std::find). -/
def AbstractMetaObjectBase.isOwnedBy (m : AbstractMetaObjectBase) (loader : LoaderPtr) : Bool :=
  decide (loader ∈ m.associated_class_loaders)

/-- AbstractMetaObjectBase::isOwnedByAnybody: the owner vector is non-empty. -/
def AbstractMetaObjectBase.isOwnedByAnybody (m : AbstractMetaObjectBase) : Bool :=
  m.associated_class_loaders.length > 0

/-- Registration data carried by one CLASS_LOADER_REGISTER_CLASS invocation
fired from a library's static initializers: the literal derived and base
class names and the typeid name of the base (the registry key). -/
structure PluginRegistration where
  class_name : String
  base_class_name : String
  typeid_base_class_name : String
deriving Repr, DecidableEq, Inhabited

/-- The process-global state of class_loader_core.cpp: the meta-object heap
(`pool`, keyed by identifier), the nested factory registry
(`factoryMapMap`, a sorted map from typeid base name to a sorted map from
class name to meta-object id), the graveyard, the open-library vector, the
loading context, and the non-pure flag. -/
structure CoreState where
  pool : List (Nat × AbstractMetaObjectBase) := []
  nextId : Nat := 0
  factoryMapMap : List (String × List (String × Nat)) := []
  graveyard : List Nat := []
  openLibraries : List String := []
  currentlyLoadingLibraryName : String := ""
  currentlyActiveClassLoader : LoaderPtr := none
  nonPurePluginLibraryOpened : Bool := false
deriving Repr, DecidableEq, Inhabited

/-- Dereference a meta-object id in the heap pool. -/
def poolGet (s : CoreState) (i : Nat) : AbstractMetaObjectBase :=
  (alistFind? i s.pool).getD default

/-- Overwrite a meta-object record in the heap pool. -/
def poolSet (s : CoreState) (i : Nat) (m : AbstractMetaObjectBase) : CoreState :=
  { s with pool := alistUpdate i m s.pool }

/-- hasANonPurePluginLibraryBeenOpened (reader). -/
def hasANonPurePluginLibraryBeenOpened (s : CoreState) : Bool :=
  s.nonPurePluginLibraryOpened

/-- Write the factory slot for `(typeid_base, class_name)`, creating the
per-base factory map if missing (getFactoryMapForBaseClass followed by
`factoryMap[class_name] = ptr`). -/
def setFactory (s : CoreState) (typeid_base class_name : String) (i : Nat) : CoreState :=
  let fm := (alistFind? typeid_base s.factoryMapMap).getD []
  { s with factoryMapMap := smapInsert typeid_base (smapInsert class_name i fm) s.factoryMapMap }

/-- allMetaObjects(): every meta-object id in the registry, walking the outer
map and each factory map in their iteration order. -/
def allMetaObjects (s : CoreState) : List Nat :=
  (s.factoryMapMap.map (fun p => p.2.map (fun q => q.2))).flatten

/-- filterAllMetaObjectsOwnedBy. -/
def filterAllMetaObjectsOwnedBy (s : CoreState) (ids : List Nat) (owner : LoaderPtr) : List Nat :=
  ids.filter (fun i => (poolGet s i).isOwnedBy owner)

/-- filterAllMetaObjectsAssociatedWithLibrary. -/
def filterAllMetaObjectsAssociatedWithLibrary (s : CoreState) (ids : List Nat)
    (library_path : String) : List Nat :=
  ids.filter (fun i => (poolGet s i).associated_library_path = library_path)

/-- allMetaObjectsForLibrary. -/
def allMetaObjectsForLibrary (s : CoreState) (library_path : String) : List Nat :=
  filterAllMetaObjectsAssociatedWithLibrary s (allMetaObjects s) library_path

/-- allMetaObjectsForLibraryOwnedBy. -/
def allMetaObjectsForLibraryOwnedBy (s : CoreState) (library_path : String)
    (owner : LoaderPtr) : List Nat :=
  filterAllMetaObjectsOwnedBy s (allMetaObjectsForLibrary s library_path) owner

/-- areThereAnyExistingMetaObjectsForLibrary. -/
def areThereAnyExistingMetaObjectsForLibrary (s : CoreState) (library_path : String) : Bool :=
  (allMetaObjectsForLibrary s library_path).length > 0

/-- isLibraryLoadedByAnybody: the open-library vector has an entry for the
path (findLoadedLibrary finds a pair whose first component matches). -/
def isLibraryLoadedByAnybody (s : CoreState) (library_path : String) : Bool :=
  s.openLibraries.any (fun p => p = library_path)

/-- impl::isLibraryLoaded (class_loader_core.cpp lines 618-632), translated
literally: the ownership test compares the count of meta objects for the
library bound to the loader against the total count with `<=`. -/
def implIsLibraryLoaded (s : CoreState) (library_path : String) (loader : LoaderPtr) : Bool :=
  let is_lib_loaded_by_anyone := isLibraryLoadedByAnybody s library_path
  let num_meta_objs_for_lib := (allMetaObjectsForLibrary s library_path).length
  let num_meta_objs_for_lib_bound_to_loader :=
    (allMetaObjectsForLibraryOwnedBy s library_path loader).length
  let are_meta_objs_bound_to_loader :=
    if num_meta_objs_for_lib = 0 then true
    else decide (num_meta_objs_for_lib_bound_to_loader ≤ num_meta_objs_for_lib)
  is_lib_loaded_by_anyone && are_meta_objs_bound_to_loader

/-- The spec's reading of `is_library_loaded()`: resident and (no meta
objects, or at least one meta object bound to this loader).  Stated from the
spec's words to compare with the implementation above. -/
def isLibraryLoadedSpecification (s : CoreState) (library_path : String)
    (loader : LoaderPtr) : Bool :=
  isLibraryLoadedByAnybody s library_path &&
    ((allMetaObjectsForLibrary s library_path).length = 0 ||
      (allMetaObjectsForLibraryOwnedBy s library_path loader).length > 0)

/-- registerPlugin (class_loader_core.hpp): raise the non-pure flag when no
loader is active, build the meta object, add the currently active loader
pointer (possibly null) to its owners, stamp the currently loading library
path, and insert it into the factory slot, overwriting a colliding entry.
Returns the id of the new meta object together with the new state. -/
def registerPlugin (s : CoreState)
    (class_name base_class_name typeid_base_class_name : String) : Nat × CoreState :=
  let s1 := if s.currentlyActiveClassLoader = none
            then { s with nonPurePluginLibraryOpened := true } else s
  let obj : AbstractMetaObjectBase :=
    { class_name := class_name, base_class_name := base_class_name,
      typeid_base_class_name := typeid_base_class_name }
  let obj := obj.addOwningClassLoader s1.currentlyActiveClassLoader
  let obj := { obj with associated_library_path := s1.currentlyLoadingLibraryName }
  let i := s1.nextId
  let s2 := { s1 with pool := s1.pool ++ [(i, obj)], nextId := i + 1 }
  (i, setFactory s2 typeid_base_class_name class_name i)

/-- Run the registration calls triggered by a library open, in order. -/
def runRegistrations : List PluginRegistration → CoreState → CoreState
  | [], s => s
  | r :: rest, s =>
    runRegistrations rest
      (registerPlugin s r.class_name r.base_class_name r.typeid_base_class_name).2

/-- Inner loop of destroyMetaObjectsForLibrary over one factory map: for
each entry whose meta object matches the library path and is owned by the
loader, remove the loader from its owners; if the owner vector becomes
empty, erase the entry and push the meta object into the graveyard.
Returns the rewritten factory map together with the updated state. -/
def destroyMetaObjectsInFactoryMap (library_path : String) (loader : LoaderPtr) :
    List (String × Nat) → CoreState → List (String × Nat) × CoreState
  | [], s => ([], s)
  | (cls, i) :: rest, s =>
    let m := poolGet s i
    if m.associated_library_path = library_path ∧ m.isOwnedBy loader then
      let m' := m.removeOwningClassLoader loader
      let s' := poolSet s i m'
      if m'.isOwnedByAnybody then
        let (r, sr) := destroyMetaObjectsInFactoryMap library_path loader rest s'
        ((cls, i) :: r, sr)
      else
        destroyMetaObjectsInFactoryMap library_path loader rest
          { s' with graveyard := s'.graveyard ++ [i] }
    else
      let (r, sr) := destroyMetaObjectsInFactoryMap library_path loader rest s
      ((cls, i) :: r, sr)

/-- Walk of destroyMetaObjectsForLibrary over every factory map in the
global map, rebuilding the outer map with the rewritten inner maps. -/
def destroyMetaObjectsForLibraryGo (library_path : String) (loader : LoaderPtr) :
    List (String × List (String × Nat)) → CoreState →
    List (String × List (String × Nat)) × CoreState
  | [], s => ([], s)
  | (base, fm) :: rest, s =>
    let (fm', s') := destroyMetaObjectsInFactoryMap library_path loader fm s
    let (r, s'') := destroyMetaObjectsForLibraryGo library_path loader rest s'
    ((base, fm') :: r, s'')

/-- destroyMetaObjectsForLibrary(library_path, loader). -/
def destroyMetaObjectsForLibrary (s : CoreState) (library_path : String)
    (loader : LoaderPtr) : CoreState :=
  let (fmm, s') := destroyMetaObjectsForLibraryGo library_path loader s.factoryMapMap s
  { s' with factoryMapMap := fmm }

/-- Walk of revivePreviouslyCreateMetaobjectsFromGraveyard over the graveyard
ids: each grave meta object of the library gains the loader as owner and is
reinserted into its factory slot; the graveyard itself is not changed here. -/
def reviveGo (library_path : String) (loader : LoaderPtr) :
    List Nat → CoreState → CoreState
  | [], s => s
  | i :: rest, s =>
    let obj := poolGet s i
    if obj.associated_library_path = library_path then
      let obj' := obj.addOwningClassLoader loader
      let s' := poolSet s i obj'
      reviveGo library_path loader rest
        (setFactory s' obj'.typeid_base_class_name obj'.class_name i)
    else reviveGo library_path loader rest s

/-- revivePreviouslyCreateMetaobjectsFromGraveyard(library_path, loader). -/
def revivePreviouslyCreateMetaobjectsFromGraveyard (s : CoreState)
    (library_path : String) (loader : LoaderPtr) : CoreState :=
  reviveGo library_path loader s.graveyard s

/-- purgeGraveyardOfMetaobjects: drop every graveyard entry whose meta object
is associated with the library path (the loader argument of the C++ function
is only used for logging). -/
def purgeGraveyardOfMetaobjects (s : CoreState) (library_path : String) : CoreState :=
  { s with graveyard :=
      s.graveyard.filter (fun i => !((poolGet s i).associated_library_path = library_path)) }

/-- Walk of addClassLoaderOwnerForAllExistingMetaObjectsForLibrary over the
meta objects of the library. -/
def addOwnerGo (loader : LoaderPtr) : List Nat → CoreState → CoreState
  | [], s => s
  | i :: rest, s => addOwnerGo loader rest (poolSet s i ((poolGet s i).addOwningClassLoader loader))

/-- addClassLoaderOwnerForAllExistingMetaObjectsForLibrary(library_path, loader). -/
def addClassLoaderOwnerForAllExistingMetaObjectsForLibrary (s : CoreState)
    (library_path : String) (loader : LoaderPtr) : CoreState :=
  addOwnerGo loader (allMetaObjectsForLibrary s library_path) s

/-- impl::loadLibrary (class_loader_core.cpp lines 793-881).  `openOk` models
the outcome of the OS-level SharedLibrary open; `regs` models the
registration calls the library's static initializers fire during the open.
Returns the new state and whether a LibraryLoadException was thrown.  When
the library is already resident the existing meta objects just gain the
loader as owner; otherwise the loading context is set, the open is attempted
(on failure the context is cleared and the exception propagates), the
context is cleared, the graveyard is revived when the open registered no
meta objects for the path, the graveyard is purged, and the library is
appended to the open-library vector. -/
def implLoadLibrary (s : CoreState) (library_path : String) (loader : LoaderId)
    (openOk : Bool) (regs : List PluginRegistration) : CoreState × Bool :=
  if isLibraryLoadedByAnybody s library_path then
    (addClassLoaderOwnerForAllExistingMetaObjectsForLibrary s library_path (some loader), false)
  else
    let s1 := { s with currentlyActiveClassLoader := some loader,
                       currentlyLoadingLibraryName := library_path }
    if !openOk then
      ({ s1 with currentlyLoadingLibraryName := "", currentlyActiveClassLoader := none }, true)
    else
      let s2 := runRegistrations regs s1
      let s3 := { s2 with currentlyLoadingLibraryName := "",
                          currentlyActiveClassLoader := none }
      let s4 := if (allMetaObjectsForLibrary s3 library_path).length = 0 then
                  revivePreviouslyCreateMetaobjectsFromGraveyard s3 library_path (some loader)
                else s3
      let s5 := purgeGraveyardOfMetaobjects s4 library_path
      ({ s5 with openLibraries := s5.openLibraries ++ [library_path] }, false)

/-- impl::unloadLibrary (class_loader_core.cpp lines 889-963): refused
outright when the non-pure flag is set; otherwise, when the library is in
the open vector, its meta objects owned by the loader are dropped and, when
no meta object for the path remains, the OS handle is closed (assumed to
succeed) and the entry is removed from the open-library vector. -/
def implUnloadLibrary (s : CoreState) (library_path : String) (loader : LoaderPtr) : CoreState :=
  if hasANonPurePluginLibraryBeenOpened s then s
  else if isLibraryLoadedByAnybody s library_path then
    let s1 := destroyMetaObjectsForLibrary s library_path loader
    if areThereAnyExistingMetaObjectsForLibrary s1 library_path then s1
    else { s1 with openLibraries := s1.openLibraries.erase library_path }
  else s

/-- State of one `ClassLoader` object (class_loader.cpp): its identity (the
pointer value), the on-demand flag, the bound library path, and the two
reference counters. -/
structure ClassLoader where
  id : LoaderId
  ondemand_load_unload : Bool
  library_path : String
  load_ref_count : Int := 0
  plugin_ref_count : Int := 0
deriving Repr, DecidableEq, Inhabited

/-- ClassLoader::getLibraryPath. -/
def ClassLoader.getLibraryPath (cl : ClassLoader) : String := cl.library_path

/-- ClassLoader::isLibraryLoaded delegates to the registry with this loader. -/
def ClassLoader.isLibraryLoaded (cl : ClassLoader) (s : CoreState) : Bool :=
  implIsLibraryLoaded s cl.getLibraryPath (some cl.id)

/-- ClassLoader::loadLibrary (class_loader.cpp lines 168-182): a no-op for
the empty library path; otherwise the load reference count is incremented
and then impl::loadLibrary runs.  Returns the loader, the state, and whether
a LibraryLoadException propagated; note the increment is not rolled back
when the impl call throws. -/
def ClassLoader.loadLibrary (cl : ClassLoader) (s : CoreState) (openOk : Bool)
    (regs : List PluginRegistration) : ClassLoader × CoreState × Bool :=
  if cl.getLibraryPath = "" then (cl, s, false)
  else
    let cl1 := { cl with load_ref_count := cl.load_ref_count + 1 }
    let (s', threw) := implLoadLibrary s cl1.getLibraryPath cl1.id openOk regs
    (cl1, s', threw)

/-- ClassLoader::unloadLibraryInternal (class_loader.cpp lines 207-262).
Returns the int result, the loader, the state, and whether the severe
warning about live plugin objects was logged.  With live plugin instances
nothing changes and the current load count is returned; otherwise the load
count is decremented, the registry unload runs on the transition to zero,
and a negative count is clamped to zero. -/
def ClassLoader.unloadLibraryInternal (cl : ClassLoader) (s : CoreState) :
    Int × ClassLoader × CoreState × Bool :=
  if cl.plugin_ref_count > 0 then
    (cl.load_ref_count, cl, s, true)
  else
    let c1 := cl.load_ref_count - 1
    if c1 = 0 then
      (0, { cl with load_ref_count := 0 },
        implUnloadLibrary s cl.getLibraryPath (some cl.id), false)
    else
      let c2 := if c1 < 0 then 0 else c1
      (c2, { cl with load_ref_count := c2 }, s, false)

/-- ClassLoader::unloadLibrary (class_loader.cpp lines 189-199): returns
zero immediately for the empty library path, otherwise delegates to
unloadLibraryInternal. -/
def ClassLoader.unloadLibrary (cl : ClassLoader) (s : CoreState) :
    Int × ClassLoader × CoreState × Bool :=
  if cl.getLibraryPath = "" then (0, cl, s, false)
  else cl.unloadLibraryInternal s

/-- State of one `MultiLibraryClassLoader` (multi_library_class_loader.cpp):
the on-demand flag and the `active_class_loaders_` container, a
`std::map<LibraryPath, ClassLoader*>` modelled as a key-sorted association
list whose values are possibly-null loader pointers (unloadLibrary nulls an
entry, operator[] default-inserts a null one). -/
structure MultiLibraryClassLoader where
  enable_ondemand_loadunload : Bool
  active_class_loaders : List (String × LoaderPtr) := []
deriving Repr, DecidableEq, Inhabited

/-- MultiLibraryClassLoader::getRegisteredLibraries: the paths of the map
entries whose loader pointer is non-null, in map iteration order. -/
def MultiLibraryClassLoader.getRegisteredLibraries (m : MultiLibraryClassLoader) :
    List String :=
  (m.active_class_loaders.filter (fun p => p.2.isSome)).map (fun p => p.1)

/-- MultiLibraryClassLoader::isLibraryAvailable. -/
def MultiLibraryClassLoader.isLibraryAvailable (m : MultiLibraryClassLoader)
    (library_name : String) : Bool :=
  decide (library_name ∈ m.getRegisteredLibraries)

/-- MultiLibraryClassLoader::getAllAvailableClassLoaders: every value of the
map in its iteration order, null entries included. -/
def MultiLibraryClassLoader.getAllAvailableClassLoaders (m : MultiLibraryClassLoader) :
    List LoaderPtr :=
  m.active_class_loaders.map (fun p => p.2)

/-- MultiLibraryClassLoader::getClassLoaderForLibrary: `std::map::operator[]`
returns the binding for the path, default-inserting a null entry (at its
ordered position) when the key is absent. -/
def MultiLibraryClassLoader.getClassLoaderForLibrary (m : MultiLibraryClassLoader)
    (library_path : String) : LoaderPtr × MultiLibraryClassLoader :=
  match alistFind? library_path m.active_class_loaders with
  | some v => (v, m)
  | none =>
      let m' := { m with active_class_loaders :=
                    smapInsert library_path none m.active_class_loaders }
      (none, m')

/-- MultiLibraryClassLoader::loadLibrary at the level of the
`active_class_loaders_` container: when the path is not yet available a new
child ClassLoader is constructed and bound to the path.  `newLoaderId`
stands for the pointer of the freshly constructed child; the child's own
registry side effects live in `CoreState` and are not needed for the claims
about the container. -/
def MultiLibraryClassLoader.loadLibrary (m : MultiLibraryClassLoader)
    (library_path : String) (newLoaderId : LoaderId) : MultiLibraryClassLoader :=
  if m.isLibraryAvailable library_path then m
  else { m with active_class_loaders :=
          smapInsert library_path (some newLoaderId) m.active_class_loaders }

/-- The loop of MultiLibraryClassLoader::getClassLoaderForClass over the
result of getAllAvailableClassLoaders: return the first loader that reports
the class available.  `isClassAvailable` abstracts the per-child
`ClassLoader::isClassAvailable` query (whose answer is determined by the
registry, which the walk itself does not reorder; the walk also loads a
child's library when needed, which does not change the traversal order).  A
null entry is dereferenced by the C++ loop, which is undefined behavior;
the model then stops and reports no loader. -/
def walkForClass (isClassAvailable : LoaderId → String → Bool) (class_name : String) :
    List LoaderPtr → LoaderPtr
  | [] => none
  | none :: _ => none
  | some i :: rest =>
    if isClassAvailable i class_name then some i
    else walkForClass isClassAvailable class_name rest

/-- MultiLibraryClassLoader::getClassLoaderForClass
(multi_library_class_loader.hpp lines 454-475). -/
def MultiLibraryClassLoader.getClassLoaderForClass (m : MultiLibraryClassLoader)
    (isClassAvailable : LoaderId → String → Bool) (class_name : String) : LoaderPtr :=
  walkForClass isClassAvailable class_name m.getAllAvailableClassLoaders

/-- Build a MultiLibraryClassLoader by a sequence of loadLibrary calls,
given as the list of (path, new child loader id) in the order the libraries
were loaded. -/
def multiLoadAll (m : MultiLibraryClassLoader) :
    List (String × LoaderId) → MultiLibraryClassLoader
  | [] => m
  | p :: rest => multiLoadAll (m.loadLibrary p.1 p.2) rest

/-- The spec's reading of the one-argument create walk for claim C2: visit
the child loaders in the order their libraries were loaded (insertion
order) and use the first that reports the class available.  Stated from the
spec's words to compare with the implementation walk. -/
def getClassLoaderForClassInsertionOrder (insertions : List (String × LoaderId))
    (isClassAvailable : LoaderId → String → Bool) (class_name : String) : LoaderPtr :=
  walkForClass isClassAvailable class_name (insertions.map (fun p => some p.2))

/-- Two-argument MultiLibraryClassLoader::createInstance modelled at the
loader-routing level: look the path up with operator[] and either fail with
NoClassLoaderExists (null binding) or hand the construction to the selected
child loader.  Returns the routing outcome and the MultiLoader state after
the call. -/
def MultiLibraryClassLoader.createInstanceForLibrary (m : MultiLibraryClassLoader)
    (library_path : String) : Except Unit LoaderId × MultiLibraryClassLoader :=
  let (l, m') := m.getClassLoaderForLibrary library_path
  match l with
  | none => (Except.error (), m')
  | some i => (Except.ok i, m')

/-- An owner-list operation on a meta object: the two mutators of the owner
vector exposed by AbstractMetaObjectBase. -/
inductive OwnerOp where
  | add (loader : LoaderPtr)
  | remove (loader : LoaderPtr)
deriving Repr, DecidableEq

/-- Apply one owner-list operation. -/
def applyOwnerOp (m : AbstractMetaObjectBase) : OwnerOp → AbstractMetaObjectBase
  | .add loader => m.addOwningClassLoader loader
  | .remove loader => m.removeOwningClassLoader loader

/-- Invoke ClassLoader::loadLibrary n times in a row with a succeeding OS
open, threading the registry state. -/
def loadN (cl : ClassLoader) (s : CoreState) (regs : List PluginRegistration) :
    Nat → ClassLoader × CoreState
  | 0 => (cl, s)
  | n + 1 =>
    let r := cl.loadLibrary s true regs
    loadN r.1 r.2.1 regs n

/-- Invoke ClassLoader::unloadLibrary n times in a row, threading loader and
registry state and discarding the int results. -/
def unloadIter : Nat → ClassLoader × CoreState → ClassLoader × CoreState
  | 0, p => p
  | n + 1, p =>
    let r := p.1.unloadLibrary p.2
    unloadIter n (r.2.1, r.2.2.1)

/-- The int returned by the (n+1)-st ClassLoader::unloadLibrary call, after
n earlier calls. -/
def unloadResultAfter (cl : ClassLoader) (s : CoreState) (n : Nat) : Int :=
  (((unloadIter n (cl, s)).1).unloadLibrary (unloadIter n (cl, s)).2).1

/-- A registry state in which library "a" is resident and its only meta
object is owned solely by the loader with id 7. -/
def residentNotOwnedState : CoreState :=
  { pool := [(0, { class_name := "C", base_class_name := "B",
                   typeid_base_class_name := "tB",
                   associated_library_path := "a",
                   associated_class_loaders := [some 7] })],
    nextId := 1,
    factoryMapMap := [("tB", [("C", 0)])],
    openLibraries := ["a"] }

/-- A fresh loader bound to library "a" with both counters at zero. -/
def freshLoaderA : ClassLoader :=
  { id := 1, ondemand_load_unload := false, library_path := "a" }

/-- A fresh loader bound to the empty library path. -/
def emptyPathLoader : ClassLoader :=
  { id := 1, ondemand_load_unload := false, library_path := "" }

/-! Helper lemmas shared by several claims. -/

/-- The owned filter is a sublist, so its length never exceeds the total. -/
theorem length_owned_le (s : CoreState) (library_path : String) (loader : LoaderPtr) :
    (allMetaObjectsForLibraryOwnedBy s library_path loader).length ≤
      (allMetaObjectsForLibrary s library_path).length :=
  List.length_filter_le _ _

/-- Claim C1, counterexample: library "a" is resident and its only meta
object is owned by loader 7 alone, yet loader 1 still gets true from
is_library_loaded, while the claim requires false there. -/
theorem isLibraryLoaded_deviates_from_spec :
    implIsLibraryLoaded residentNotOwnedState "a" (some 1) = true ∧
    isLibraryLoadedSpecification residentNotOwnedState "a" (some 1) = false := by
  decide

/-- Claim C1 (amended): is_library_loaded returns true iff the library is
resident in the process, for every loader; the ownership clause of the
source is vacuous because it compares the owned count against the total
count with a less-or-equal test. -/
theorem isLibraryLoaded_eq_residency (s : CoreState) (library_path : String)
    (loader : LoaderPtr) :
    implIsLibraryLoaded s library_path loader = isLibraryLoadedByAnybody s library_path := by
  have h := length_owned_le s library_path loader
  unfold implIsLibraryLoaded
  by_cases h0 : (allMetaObjectsForLibrary s library_path).length = 0
  · simp [h0]
  · simp [h0, h]

/-- Claim C5: ClassLoader::unloadLibraryInternal with live plugin instances
logs the severe warning, leaves the loader and the registry untouched, does
not close anything, and returns the current load count. -/
theorem unload_with_live_instances (cl : ClassLoader) (s : CoreState)
    (h : cl.plugin_ref_count > 0) :
    cl.unloadLibraryInternal s = (cl.load_ref_count, cl, s, true) := by
  unfold ClassLoader.unloadLibraryInternal
  simp [h]

/-- Claim C5, witness at a loader with one live instance and load count 2. -/
theorem unload_with_live_instances_witness :
    (⟨1, false, "a", 2, 1⟩ : ClassLoader).plugin_ref_count > 0 ∧
    ClassLoader.unloadLibraryInternal ⟨1, false, "a", 2, 1⟩ {} =
      (2, ⟨1, false, "a", 2, 1⟩, {}, true) :=
  ⟨by decide, unload_with_live_instances ⟨1, false, "a", 2, 1⟩ {} (by decide)⟩

/-- Claim C8: for a loader bound to the empty library path, loadLibrary is a
no-op that succeeds without touching the registry (for any open outcome and
any registrations), and unloadLibrary returns zero immediately with no other
effect. -/
theorem empty_path_noop (cl : ClassLoader) (s : CoreState) (openOk : Bool)
    (regs : List PluginRegistration) (h : cl.library_path = "") :
    cl.loadLibrary s openOk regs = (cl, s, false) ∧
    cl.unloadLibrary s = (0, cl, s, false) := by
  unfold ClassLoader.loadLibrary ClassLoader.unloadLibrary ClassLoader.getLibraryPath
  simp [h]

/-- Claim C8, witness at the empty-path loader and the empty registry. -/
theorem empty_path_noop_witness :
    emptyPathLoader.library_path = "" ∧
    emptyPathLoader.loadLibrary {} false [] = (emptyPathLoader, {}, false) ∧
    emptyPathLoader.unloadLibrary {} = (0, emptyPathLoader, {}, false) :=
  ⟨by decide, (empty_path_noop emptyPathLoader {} false [] (by decide)).1,
    (empty_path_noop emptyPathLoader {} false [] (by decide)).2⟩

/-- Looking a fresh key up after appending its binding finds the binding. -/
theorem alistFind_append_self {κ α : Type} [BEq κ] [LawfulBEq κ] (k : κ) (v : α)
    (l : List (κ × α)) (h : alistFind? k l = none) :
    alistFind? k (l ++ [(k, v)]) = some v := by
  induction l with
  | nil => simp [alistFind?]
  | cons p rest ih =>
    obtain ⟨k', v'⟩ := p
    simp only [List.cons_append, alistFind?] at h ⊢
    by_cases hk : k == k'
    · simp [hk] at h
    · simp only [hk, if_false] at h ⊢
      exact ih h

/-- Claim C4, counterexample: a registration arriving with no active loader
produces a meta object whose owner vector is the singleton null pointer, not
the empty vector the claim states. -/
theorem register_without_loader_owners_not_empty :
    (poolGet (registerPlugin {} "C" "B" "tB").2 0).associated_class_loaders = [none] ∧
    ¬ (poolGet (registerPlugin {} "C" "B" "tB").2 0).associated_class_loaders = [] := by
  decide

/-- Claim C4 (amended): a registration made while the loading context has no
active loader starts the new meta object's owner vector as the one-element
vector holding the null loader (which the registry treats as the ownerless
case), and raises the process-wide non-pure flag. -/
theorem register_without_loader (s : CoreState) (c b t : String)
    (h : s.currentlyActiveClassLoader = none)
    (hfresh : alistFind? s.nextId s.pool = none) :
    (poolGet (registerPlugin s c b t).2 (registerPlugin s c b t).1).associated_class_loaders
        = [none] ∧
    (registerPlugin s c b t).2.nonPurePluginLibraryOpened = true := by
  unfold registerPlugin
  simp only [h, if_true, reduceIte]
  constructor
  · unfold poolGet setFactory AbstractMetaObjectBase.addOwningClassLoader
    simp only
    rw [alistFind_append_self _ _ _ hfresh]
    simp
  · unfold setFactory
    simp

/-- Claim C4, witness at the empty registry state. -/
theorem register_without_loader_witness :
    (({} : CoreState).currentlyActiveClassLoader = none ∧
      alistFind? ({} : CoreState).nextId ({} : CoreState).pool = none) ∧
    ((poolGet (registerPlugin {} "D" "B" "tB").2
        (registerPlugin {} "D" "B" "tB").1).associated_class_loaders = [none] ∧
      (registerPlugin {} "D" "B" "tB").2.nonPurePluginLibraryOpened = true) :=
  ⟨⟨by decide, by decide⟩, register_without_loader {} "D" "B" "tB" (by decide) (by decide)⟩

/-- Claim C3, counterexample: a failed OS open propagates the LibraryLoad
error, but the loader's load count has moved from 0 to 1, not back to its
prior value as the claim states. -/
theorem failed_load_bumps_count :
    (freshLoaderA.loadLibrary {} false []).2.2 = true ∧
    (freshLoaderA.loadLibrary {} false []).1.load_ref_count = 1 ∧
    ¬ (freshLoaderA.loadLibrary {} false []).1.load_ref_count
        = freshLoaderA.load_ref_count := by
  decide

/-- Claim C3 (amended): when the OS open fails during loadLibrary on a
library that is not yet resident, the LibraryLoad error propagates to the
caller and the loading context is cleared, but the loader's load count has
already been incremented and is not rolled back; the rest of the registry
state is untouched. -/
theorem failed_load (cl : ClassLoader) (s : CoreState)
    (regs : List PluginRegistration)
    (hpath : cl.library_path ≠ "")
    (hnot : isLibraryLoadedByAnybody s cl.library_path = false) :
    cl.loadLibrary s false regs =
      ({ cl with load_ref_count := cl.load_ref_count + 1 },
       { s with currentlyActiveClassLoader := none, currentlyLoadingLibraryName := "" },
       true) := by
  unfold ClassLoader.loadLibrary implLoadLibrary ClassLoader.getLibraryPath
  simp [hpath, hnot]

/-- Claim C3, witness at a fresh loader for library "a" and the empty
registry. -/
theorem failed_load_witness :
    (freshLoaderA.library_path ≠ "" ∧
      isLibraryLoadedByAnybody {} freshLoaderA.library_path = false) ∧
    freshLoaderA.loadLibrary {} false [] =
      ({ freshLoaderA with load_ref_count := 1 },
       { ({} : CoreState) with currentlyActiveClassLoader := none, currentlyLoadingLibraryName := "" },
       true) :=
  ⟨⟨by decide, by decide⟩, failed_load freshLoaderA {} [] (by decide) (by decide)⟩

/-- Adding an owner preserves a duplicate-free owner vector. -/
theorem addOwningClassLoader_nodup (m : AbstractMetaObjectBase) (loader : LoaderPtr)
    (h : m.associated_class_loaders.Nodup) :
    (m.addOwningClassLoader loader).associated_class_loaders.Nodup := by
  unfold AbstractMetaObjectBase.addOwningClassLoader
  by_cases hl : loader ∈ m.associated_class_loaders
  · simpa [hl]
  · simp [hl, List.nodup_append, h]

/-- Removing an owner preserves a duplicate-free owner vector. -/
theorem removeOwningClassLoader_nodup (m : AbstractMetaObjectBase) (loader : LoaderPtr)
    (h : m.associated_class_loaders.Nodup) :
    (m.removeOwningClassLoader loader).associated_class_loaders.Nodup := by
  unfold AbstractMetaObjectBase.removeOwningClassLoader
  simpa using h.erase loader

/-- Claim C9: starting from a meta object whose owner vector is
duplicate-free, any sequence of addOwningClassLoader and
removeOwningClassLoader operations keeps every loader pointer (the null
loader included) occurring at most once in the owner vector. -/
theorem owners_stay_nodup (m : AbstractMetaObjectBase) (ops : List OwnerOp)
    (h : m.associated_class_loaders.Nodup) :
    (ops.foldl applyOwnerOp m).associated_class_loaders.Nodup := by
  induction ops generalizing m with
  | nil => exact h
  | cons op rest ih =>
    simp only [List.foldl_cons]
    apply ih
    cases op with
    | add loader => exact addOwningClassLoader_nodup m loader h
    | remove loader => exact removeOwningClassLoader_nodup m loader h

/-- Claim C9, witness: a freshly constructed meta object (empty owner
vector) stays duplicate-free through a repeated add of the same loader, an
add of the null loader, and a remove. -/
theorem owners_stay_nodup_witness :
    (({ class_name := "C", base_class_name := "B", typeid_base_class_name := "tB" } :
        AbstractMetaObjectBase).associated_class_loaders.Nodup) ∧
    (([OwnerOp.add (some 1), OwnerOp.add (some 1), OwnerOp.add none,
        OwnerOp.remove (some 1)].foldl applyOwnerOp
      { class_name := "C", base_class_name := "B", typeid_base_class_name := "tB" }
      ).associated_class_loaders.Nodup) :=
  ⟨by decide,
    owners_stay_nodup
      { class_name := "C", base_class_name := "B", typeid_base_class_name := "tB" }
      [OwnerOp.add (some 1), OwnerOp.add (some 1), OwnerOp.add none,
        OwnerOp.remove (some 1)] (by decide)⟩

/-- Tagging existing meta objects with an extra owner never touches the
non-pure flag. -/
theorem addOwnerGo_nonPure (loader : LoaderPtr) (ids : List Nat) (s : CoreState) :
    (addOwnerGo loader ids s).nonPurePluginLibraryOpened = s.nonPurePluginLibraryOpened := by
  induction ids generalizing s with
  | nil => rfl
  | cons i rest ih => simp [addOwnerGo, ih, poolSet]

/-- registerPlugin never lowers the non-pure flag. -/
theorem registerPlugin_nonPure_mono (s : CoreState) (c b t : String)
    (h : s.nonPurePluginLibraryOpened = true) :
    (registerPlugin s c b t).2.nonPurePluginLibraryOpened = true := by
  unfold registerPlugin setFactory
  by_cases ha : s.currentlyActiveClassLoader = none <;> simp [ha, h]

/-- A batch of registrations never lowers the non-pure flag. -/
theorem runRegistrations_nonPure_mono (regs : List PluginRegistration) (s : CoreState)
    (h : s.nonPurePluginLibraryOpened = true) :
    (runRegistrations regs s).nonPurePluginLibraryOpened = true := by
  induction regs generalizing s with
  | nil => exact h
  | cons r rest ih =>
    exact ih _ (registerPlugin_nonPure_mono s r.class_name r.base_class_name
      r.typeid_base_class_name h)

/-- Reviving graveyarded meta objects never touches the non-pure flag. -/
theorem reviveGo_nonPure (library_path : String) (loader : LoaderPtr) (ids : List Nat)
    (s : CoreState) :
    (reviveGo library_path loader ids s).nonPurePluginLibraryOpened =
      s.nonPurePluginLibraryOpened := by
  induction ids generalizing s with
  | nil => rfl
  | cons i rest ih =>
    unfold reviveGo
    by_cases hp : (poolGet s i).associated_library_path = library_path <;>
      simp [hp, ih, poolSet, setFactory]

/-- A registry-level library load never lowers the non-pure flag. -/
theorem implLoadLibrary_nonPure_mono (s : CoreState) (library_path : String)
    (lid : LoaderId) (openOk : Bool) (regs : List PluginRegistration)
    (h : s.nonPurePluginLibraryOpened = true) :
    (implLoadLibrary s library_path lid openOk regs).1.nonPurePluginLibraryOpened = true := by
  unfold implLoadLibrary
  by_cases hres : isLibraryLoadedByAnybody s library_path = true
  · simp [hres, addOwnerGo_nonPure, addClassLoaderOwnerForAllExistingMetaObjectsForLibrary, h]
  · simp only [hres, if_false, Bool.false_eq_true]
    cases openOk with
    | false => simp [h]
    | true =>
      have h2 := runRegistrations_nonPure_mono regs
        { s with currentlyActiveClassLoader := some lid,
                 currentlyLoadingLibraryName := library_path } h
      simp only [Bool.not_true, purgeGraveyardOfMetaobjects]
      rw [if_neg (by simp)]
      split
      · simp [revivePreviouslyCreateMetaobjectsFromGraveyard, reviveGo_nonPure, h2]
      · simp [h2]

/-- Claim C7: once the non-pure flag is true, every registry-level
unloadLibrary call, for every library path and every loader, returns with
the whole state unchanged (no library closed, no meta object dropped, no
open-library entry removed); and no registry operation - registration, a
further library load, or an unload - ever resets the flag. -/
theorem nonpure_blocks_unload (s : CoreState) (library_path : String)
    (loader : LoaderPtr) (lid : LoaderId) (openOk : Bool)
    (regs : List PluginRegistration) (c b t : String)
    (h : s.nonPurePluginLibraryOpened = true) :
    implUnloadLibrary s library_path loader = s ∧
    (registerPlugin s c b t).2.nonPurePluginLibraryOpened = true ∧
    (implLoadLibrary s library_path lid openOk regs).1.nonPurePluginLibraryOpened = true := by
  refine ⟨?_, registerPlugin_nonPure_mono s c b t h,
    implLoadLibrary_nonPure_mono s library_path lid openOk regs h⟩
  unfold implUnloadLibrary hasANonPurePluginLibraryBeenOpened
  simp [h]

/-- Claim C7, witness at a state whose non-pure flag is already raised and
which has library "a" resident. -/
theorem nonpure_blocks_unload_witness :
    ({ residentNotOwnedState with nonPurePluginLibraryOpened := true } :
        CoreState).nonPurePluginLibraryOpened = true ∧
    (implUnloadLibrary { residentNotOwnedState with nonPurePluginLibraryOpened := true }
        "a" (some 7) = { residentNotOwnedState with nonPurePluginLibraryOpened := true } ∧
      (registerPlugin { residentNotOwnedState with nonPurePluginLibraryOpened := true }
          "C" "B" "tB").2.nonPurePluginLibraryOpened = true ∧
      (implLoadLibrary { residentNotOwnedState with nonPurePluginLibraryOpened := true }
          "a" 7 true []).1.nonPurePluginLibraryOpened = true) :=
  ⟨by decide,
    nonpure_blocks_unload { residentNotOwnedState with nonPurePluginLibraryOpened := true }
      "a" (some 7) 7 true [] "C" "B" "tB" (by decide)⟩

/-- Looking a key up right after inserting it finds the inserted value. -/
theorem alistFind_smapInsert_self {α : Type} (k : String) (v : α) (l : List (String × α)) :
    alistFind? k (smapInsert k v l) = some v := by
  induction l with
  | nil => simp [smapInsert, alistFind?]
  | cons p rest ih =>
    obtain ⟨k', v'⟩ := p
    unfold smapInsert
    by_cases h1 : k.data < k'.data
    · simp [h1, alistFind?]
    · by_cases h2 : k = k'
      · simp [h1, h2, alistFind?]
      · have hbeq : (k == k') = false := beq_eq_false_iff_ne.mpr h2
        simp [h1, h2, alistFind?, hbeq, ih]

/-- Inserting a null binding for a fresh key does not change the non-null
entries of the map. -/
theorem filter_isSome_smapInsert_none (k : String) (l : List (String × LoaderPtr))
    (h : alistFind? k l = none) :
    (smapInsert k none l).filter (fun p => p.2.isSome) = l.filter (fun p => p.2.isSome) := by
  induction l with
  | nil => simp [smapInsert]
  | cons p rest ih =>
    obtain ⟨k', v'⟩ := p
    simp only [alistFind?] at h
    by_cases hbeq : (k == k') = true
    · simp [hbeq] at h
    · simp only [hbeq, if_false] at h
      have h2 : ¬ k = k' := by simpa using hbeq
      unfold smapInsert
      by_cases h1 : k.data < k'.data
      · simp [h1, List.filter_cons]
      · simp [h1, h2, List.filter_cons, ih h]

/-- A key with no binding at all is not among the registered (non-null)
keys. -/
theorem not_registered_of_find_none (l : List (String × LoaderPtr)) (k : String)
    (h : alistFind? k l = none) :
    k ∉ (l.filter (fun p => p.2.isSome)).map (fun p => p.1) := by
  induction l with
  | nil => simp
  | cons p rest ih =>
    obtain ⟨k', v'⟩ := p
    simp only [alistFind?] at h
    by_cases hbeq : (k == k') = true
    · simp [hbeq] at h
    · simp only [hbeq, if_false] at h
      have h2 : ¬ k = k' := by simpa using hbeq
      cases v' with
      | none => simpa using ih h
      | some i => simp [List.filter_cons, ih h, h2]

/-- Claim C10: a two-argument create call for a library path with no binding
in the MultiLoader fails with NoClassLoaderExists, and although the
operator-bracket lookup inserts a null map entry for the unknown path, the
registered-library list is unchanged and the unknown path still reports
unavailable afterwards. -/
theorem failed_create_unknown_path (m : MultiLibraryClassLoader) (library_path : String)
    (h : alistFind? library_path m.active_class_loaders = none) :
    (m.createInstanceForLibrary library_path).1 = Except.error () ∧
    (m.createInstanceForLibrary library_path).2.getRegisteredLibraries =
      m.getRegisteredLibraries ∧
    (m.createInstanceForLibrary library_path).2.isLibraryAvailable library_path = false ∧
    alistFind? library_path (m.createInstanceForLibrary library_path).2.active_class_loaders
      = some none := by
  unfold MultiLibraryClassLoader.createInstanceForLibrary
    MultiLibraryClassLoader.getClassLoaderForLibrary
  simp only [h]
  refine ⟨trivial, ?_, ?_, ?_⟩
  · unfold MultiLibraryClassLoader.getRegisteredLibraries
    simp [filter_isSome_smapInsert_none _ _ h]
  · unfold MultiLibraryClassLoader.isLibraryAvailable
      MultiLibraryClassLoader.getRegisteredLibraries
    simp only [decide_eq_false_iff_not]
    simpa [filter_isSome_smapInsert_none _ _ h] using
      not_registered_of_find_none m.active_class_loaders library_path h
  · simpa using alistFind_smapInsert_self library_path none m.active_class_loaders

/-- Claim C10, witness at a MultiLoader holding only library "a" and the
unknown path "b". -/
theorem failed_create_unknown_path_witness :
    alistFind? "b" (⟨false, [("a", some 3)]⟩ : MultiLibraryClassLoader).active_class_loaders
        = none ∧
    ((MultiLibraryClassLoader.createInstanceForLibrary ⟨false, [("a", some 3)]⟩ "b").1
        = Except.error () ∧
      (MultiLibraryClassLoader.createInstanceForLibrary ⟨false, [("a", some 3)]⟩
          "b").2.getRegisteredLibraries =
        (⟨false, [("a", some 3)]⟩ : MultiLibraryClassLoader).getRegisteredLibraries ∧
      (MultiLibraryClassLoader.createInstanceForLibrary ⟨false, [("a", some 3)]⟩
          "b").2.isLibraryAvailable "b" = false ∧
      alistFind? "b" (MultiLibraryClassLoader.createInstanceForLibrary
          ⟨false, [("a", some 3)]⟩ "b").2.active_class_loaders = some none) :=
  ⟨by decide, failed_create_unknown_path ⟨false, [("a", some 3)]⟩ "b" (by decide)⟩

/-- One unloadLibrary call on a non-empty path with no live instances
returns the decremented (clamped) load count and leaves path and instance
count untouched. -/
theorem unloadLibrary_step (cl : ClassLoader) (s : CoreState)
    (hpath : cl.library_path ≠ "") (hplug : cl.plugin_ref_count = 0) :
    (cl.unloadLibrary s).1 = max (cl.load_ref_count - 1) 0 ∧
    (cl.unloadLibrary s).2.1.load_ref_count = max (cl.load_ref_count - 1) 0 ∧
    (cl.unloadLibrary s).2.1.library_path = cl.library_path ∧
    (cl.unloadLibrary s).2.1.plugin_ref_count = 0 := by
  unfold ClassLoader.unloadLibrary ClassLoader.unloadLibraryInternal ClassLoader.getLibraryPath
  simp only [hpath, if_false, hplug, reduceIte]
  by_cases h1 : cl.load_ref_count - 1 = 0
  · simp [h1, hplug]
  · by_cases h2 : cl.load_ref_count - 1 < 0 <;> simp [h1, h2, hplug] <;> omega

/-- After n unloadLibrary calls the load count is the original minus n,
clamped at zero; path and instance count are untouched. -/
theorem unloadIter_fields (n : Nat) (cl : ClassLoader) (s : CoreState)
    (hpath : cl.library_path ≠ "") (hplug : cl.plugin_ref_count = 0)
    (hnn : 0 ≤ cl.load_ref_count) :
    (unloadIter n (cl, s)).1.load_ref_count = max (cl.load_ref_count - n) 0 ∧
    (unloadIter n (cl, s)).1.library_path = cl.library_path ∧
    (unloadIter n (cl, s)).1.plugin_ref_count = 0 := by
  induction n generalizing cl s with
  | zero =>
    refine ⟨?_, rfl, hplug⟩
    simp only [unloadIter]
    omega
  | succ n ih =>
    obtain ⟨e1, e2, e3, e4⟩ := unloadLibrary_step cl s hpath hplug
    have ihs := ih (cl.unloadLibrary s).2.1 (cl.unloadLibrary s).2.2.1
      (by rw [e3]; exact hpath) e4 (by rw [e2]; omega)
    obtain ⟨f1, f2, f3⟩ := ihs
    unfold unloadIter
    refine ⟨?_, ?_, f3⟩
    · rw [f1, e2]; omega
    · rw [f2, e3]

/-- The int returned by the (n+1)-st unloadLibrary call is the original
load count minus (n+1), clamped at zero. -/
theorem unloadResultAfter_eq (cl : ClassLoader) (s : CoreState) (n : Nat)
    (hpath : cl.library_path ≠ "") (hplug : cl.plugin_ref_count = 0)
    (hnn : 0 ≤ cl.load_ref_count) :
    unloadResultAfter cl s n = max (cl.load_ref_count - (n + 1)) 0 := by
  obtain ⟨f1, f2, f3⟩ := unloadIter_fields n cl s hpath hplug hnn
  obtain ⟨e1, _, _, _⟩ := unloadLibrary_step (unloadIter n (cl, s)).1 (unloadIter n (cl, s)).2
    (by rw [f2]; exact hpath) f3
  unfold unloadResultAfter
  rw [e1, f1]
  omega

/-- n loadLibrary calls on a non-empty path add n to the load count and
leave path and instance count untouched, whatever the registry does. -/
theorem loadN_fields (n : Nat) (cl : ClassLoader) (s : CoreState)
    (regs : List PluginRegistration) (hpath : cl.library_path ≠ "") :
    (loadN cl s regs n).1.load_ref_count = cl.load_ref_count + n ∧
    (loadN cl s regs n).1.library_path = cl.library_path ∧
    (loadN cl s regs n).1.plugin_ref_count = cl.plugin_ref_count := by
  induction n generalizing cl s with
  | zero => simp [loadN]
  | succ n ih =>
    have hstep : (cl.loadLibrary s true regs).1 =
        { cl with load_ref_count := cl.load_ref_count + 1 } := by
      unfold ClassLoader.loadLibrary ClassLoader.getLibraryPath
      simp [hpath]
    obtain ⟨f1, f2, f3⟩ := ih (cl.loadLibrary s true regs).1 (cl.loadLibrary s true regs).2.1
      (by rw [hstep]; exact hpath)
    have hgoal : loadN cl s regs (n + 1) =
        loadN (cl.loadLibrary s true regs).1 (cl.loadLibrary s true regs).2.1 regs n := rfl
    rw [hgoal, f1, f2, f3, hstep]
    refine ⟨by dsimp only; omega, rfl, rfl⟩

/-- Claim C6, counterexample: for the empty library path with k = 2, the
first unload call (one of the first k-1 calls) returns 0 rather than the
positive remaining count the claim requires. -/
theorem load_unload_balance_fails_on_empty_path :
    ¬ (0 < unloadResultAfter (loadN emptyPathLoader {} [] 2).1
        (loadN emptyPathLoader {} [] 2).2 0) := by
  decide

/-- Claim C6 (amended with p nonempty): loading k times needs exactly k
unloads to reach load count zero: the (j+1)-st unload returns k-(j+1),
positive for the first k-1 calls and zero at the k-th; the load count stays
positive until the k-th unload, is zero after it, and every further unload
returns zero and keeps the count clamped at zero. -/
theorem load_unload_balance (p : String) (k : Nat) (cl : ClassLoader) (s : CoreState)
    (regs : List PluginRegistration)
    (hp : p ≠ "") (hk : 1 ≤ k)
    (hcl : cl.library_path = p) (h0 : cl.load_ref_count = 0)
    (hpl : cl.plugin_ref_count = 0) :
    (∀ j : Nat, j + 1 < k →
      unloadResultAfter (loadN cl s regs k).1 (loadN cl s regs k).2 j = (k : Int) - (j + 1) ∧
      0 < unloadResultAfter (loadN cl s regs k).1 (loadN cl s regs k).2 j) ∧
    unloadResultAfter (loadN cl s regs k).1 (loadN cl s regs k).2 (k - 1) = 0 ∧
    (∀ j : Nat, j < k →
      0 < (unloadIter j ((loadN cl s regs k).1, (loadN cl s regs k).2)).1.load_ref_count) ∧
    (unloadIter k ((loadN cl s regs k).1, (loadN cl s regs k).2)).1.load_ref_count = 0 ∧
    (∀ n : Nat, k ≤ n →
      unloadResultAfter (loadN cl s regs k).1 (loadN cl s regs k).2 n = 0 ∧
      (unloadIter n ((loadN cl s regs k).1, (loadN cl s regs k).2)).1.load_ref_count = 0) := by
  obtain ⟨l1, l2, l3⟩ := loadN_fields k cl s regs (by rw [hcl]; exact hp)
  have hpath2 : (loadN cl s regs k).1.library_path ≠ "" := by rw [l2, hcl]; exact hp
  have hplug2 : (loadN cl s regs k).1.plugin_ref_count = 0 := by rw [l3]; exact hpl
  have hcnt : (loadN cl s regs k).1.load_ref_count = (k : Int) := by rw [l1, h0]; omega
  have hnn : 0 ≤ (loadN cl s regs k).1.load_ref_count := by rw [hcnt]; omega
  refine ⟨?_, ?_, ?_, ?_, ?_⟩
  · intro j hj
    have := unloadResultAfter_eq (loadN cl s regs k).1 (loadN cl s regs k).2 j
      hpath2 hplug2 hnn
    rw [this, hcnt]
    omega
  · have := unloadResultAfter_eq (loadN cl s regs k).1 (loadN cl s regs k).2 (k - 1)
      hpath2 hplug2 hnn
    rw [this, hcnt]
    omega
  · intro j hj
    obtain ⟨f1, _, _⟩ := unloadIter_fields j (loadN cl s regs k).1 (loadN cl s regs k).2
      hpath2 hplug2 hnn
    rw [f1, hcnt]
    omega
  · obtain ⟨f1, _, _⟩ := unloadIter_fields k (loadN cl s regs k).1 (loadN cl s regs k).2
      hpath2 hplug2 hnn
    rw [f1, hcnt]
    omega
  · intro n hn
    obtain ⟨f1, _, _⟩ := unloadIter_fields n (loadN cl s regs k).1 (loadN cl s regs k).2
      hpath2 hplug2 hnn
    have := unloadResultAfter_eq (loadN cl s regs k).1 (loadN cl s regs k).2 n
      hpath2 hplug2 hnn
    rw [this, hcnt, f1, hcnt]
    constructor <;> omega

/-- Claim C6, witness at library "a" with k = 2: the first unload returns 1,
the second returns 0, loader fully unloaded after exactly two unloads, and a
third unload keeps the count at zero. -/
theorem load_unload_balance_witness :
    ("a" ≠ "" ∧ 1 ≤ 2 ∧ freshLoaderA.library_path = "a" ∧
      freshLoaderA.load_ref_count = 0 ∧ freshLoaderA.plugin_ref_count = 0) ∧
    (unloadResultAfter (loadN freshLoaderA {} [] 2).1 (loadN freshLoaderA {} [] 2).2 0
        = (2 : Int) - (0 + 1) ∧
      0 < unloadResultAfter (loadN freshLoaderA {} [] 2).1 (loadN freshLoaderA {} [] 2).2 0) ∧
    unloadResultAfter (loadN freshLoaderA {} [] 2).1 (loadN freshLoaderA {} [] 2).2 (2 - 1)
        = 0 ∧
    (unloadIter 2 ((loadN freshLoaderA {} [] 2).1, (loadN freshLoaderA {} [] 2).2)
        ).1.load_ref_count = 0 ∧
    (unloadIter 3 ((loadN freshLoaderA {} [] 2).1, (loadN freshLoaderA {} [] 2).2)
        ).1.load_ref_count = 0 := by
  have h := load_unload_balance "a" 2 freshLoaderA {} [] (by decide) (by decide)
    (by decide) (by decide) (by decide)
  exact ⟨⟨by decide, by decide, by decide, by decide, by decide⟩,
    h.1 0 (by omega), h.2.1, h.2.2.2.1, (h.2.2.2.2 3 (by omega)).2⟩

/-- Every element of an inserted map is the new binding or an old one. -/
theorem mem_smapInsert {α : Type} (k : String) (v : α) (l : List (String × α))
    (x : String × α) (hx : x ∈ smapInsert k v l) : x = (k, v) ∨ x ∈ l := by
  induction l with
  | nil => simpa [smapInsert] using hx
  | cons p rest ih =>
    obtain ⟨k', v'⟩ := p
    unfold smapInsert at hx
    by_cases h1 : k.data < k'.data
    · rw [if_pos h1] at hx
      simpa [List.mem_cons] using hx
    · by_cases h2 : k = k'
      · rw [if_neg h1, if_pos h2] at hx
        simp only [List.mem_cons] at hx ⊢
        tauto
      · rw [if_neg h1, if_neg h2] at hx
        simp only [List.mem_cons] at hx ⊢
        rcases hx with hx | hx
        · tauto
        · rcases ih hx with hx2 | hx2 <;> tauto

/-- smapInsert keeps the entry list strictly sorted by key. -/
theorem smapInsert_sorted {α : Type} (k : String) (v : α) (l : List (String × α))
    (h : l.Pairwise (fun a b => a.1.data < b.1.data)) :
    (smapInsert k v l).Pairwise (fun a b => a.1.data < b.1.data) := by
  induction l with
  | nil => simp [smapInsert]
  | cons p rest ih =>
    obtain ⟨k', v'⟩ := p
    rw [List.pairwise_cons] at h
    obtain ⟨hhead, htail⟩ := h
    unfold smapInsert
    by_cases h1 : k.data < k'.data
    · rw [if_pos h1]
      refine List.Pairwise.cons ?_ (List.Pairwise.cons hhead htail)
      intro b hb
      rcases List.mem_cons.mp hb with rfl | hb2
      · exact h1
      · exact lt_trans h1 (hhead b hb2)
    · by_cases h2 : k = k'
      · rw [if_neg h1, if_pos h2]
        subst h2
        exact List.Pairwise.cons hhead htail
      · rw [if_neg h1, if_neg h2]
        refine List.Pairwise.cons ?_ (ih htail)
        intro b hb
        rcases mem_smapInsert k v rest b hb with heq | hb2
        · rw [heq]
          exact lt_of_le_of_ne (not_lt.mp h1) (fun hd => h2 (String.ext hd.symm))
        · exact hhead b hb2

/-- Inserting a different key does not change a lookup. -/
theorem alistFind_smapInsert_ne {α : Type} (k k2 : String) (v : α)
    (l : List (String × α)) (h : k ≠ k2) :
    alistFind? k (smapInsert k2 v l) = alistFind? k l := by
  induction l with
  | nil => simp [smapInsert, alistFind?, h]
  | cons p rest ih =>
    obtain ⟨k', v'⟩ := p
    unfold smapInsert
    by_cases h1 : k2.data < k'.data
    · rw [if_pos h1]
      simp [alistFind?, beq_eq_false_iff_ne.mpr h]
    · by_cases h2 : k2 = k'
      · rw [if_neg h1, if_pos h2]
        subst h2
        simp [alistFind?, beq_eq_false_iff_ne.mpr h]
      · rw [if_neg h1, if_neg h2]
        simp only [alistFind?]
        by_cases hk : (k == k') = true
        · simp [hk]
        · simp [hk, ih]

/-- Inserting a fresh key is, up to order, just consing the binding. -/
theorem smapInsert_perm_cons {α : Type} (k : String) (v : α) (l : List (String × α))
    (h : alistFind? k l = none) : (smapInsert k v l).Perm ((k, v) :: l) := by
  induction l with
  | nil => simp [smapInsert]
  | cons p rest ih =>
    obtain ⟨k', v'⟩ := p
    simp only [alistFind?] at h
    by_cases hbeq : (k == k') = true
    · simp [hbeq] at h
    · simp only [hbeq, if_false] at h
      have h2 : ¬ k = k' := by simpa using hbeq
      unfold smapInsert
      by_cases h1 : k.data < k'.data
      · rw [if_pos h1]
      · rw [if_neg h1, if_neg h2]
        exact ((ih h).cons (k', v')).trans (List.Perm.swap (k, v) (k', v') rest)

/-- Invariant of a sequence of MultiLoader loadLibrary calls with pairwise
distinct fresh paths: the map stays strictly sorted by path and holds
exactly the prior entries plus one non-null binding per loaded library. -/
theorem multiLoadAll_spec (ins : List (String × LoaderId)) (m : MultiLibraryClassLoader)
    (hnd : (ins.map Prod.fst).Nodup)
    (hsort : m.active_class_loaders.Pairwise (fun a b => a.1.data < b.1.data))
    (hsome : ∀ p ∈ m.active_class_loaders, p.2.isSome = true)
    (hdisj : ∀ q ∈ ins, alistFind? q.1 m.active_class_loaders = none) :
    (multiLoadAll m ins).active_class_loaders.Pairwise (fun a b => a.1.data < b.1.data) ∧
    (multiLoadAll m ins).active_class_loaders.Perm
      (m.active_class_loaders ++ ins.map (fun p => (p.1, some p.2))) := by
  induction ins generalizing m with
  | nil => exact ⟨hsort, by simp [multiLoadAll]⟩
  | cons q rest ih =>
    obtain ⟨path, lid⟩ := q
    simp only [List.map_cons, List.nodup_cons] at hnd
    obtain ⟨hfreshrest, hndrest⟩ := hnd
    have hfind : alistFind? path m.active_class_loaders = none :=
      hdisj (path, lid) (List.mem_cons_self _ _)
    have hnotavail : m.isLibraryAvailable path = false := by
      unfold MultiLibraryClassLoader.isLibraryAvailable
        MultiLibraryClassLoader.getRegisteredLibraries
      simpa using not_registered_of_find_none m.active_class_loaders path hfind
    have hload : m.loadLibrary path lid = { m with active_class_loaders := smapInsert path (some lid) m.active_class_loaders } := by
      unfold MultiLibraryClassLoader.loadLibrary
      simp [hnotavail]
    have hstep : multiLoadAll m ((path, lid) :: rest) =
        multiLoadAll (m.loadLibrary path lid) rest := rfl
    rw [hstep, hload]
    have ihs := ih { m with active_class_loaders := smapInsert path (some lid) m.active_class_loaders } hndrest
      (smapInsert_sorted path (some lid) m.active_class_loaders hsort)
      (by
        intro p hp
        rcases mem_smapInsert path (some lid) m.active_class_loaders p hp with heq | hmem
        · rw [heq]
          rfl
        · exact hsome p hmem)
      (by
        intro q' hq'
        have hne : q'.1 ≠ path := by
          intro hcontra
          exact hfreshrest (hcontra ▸ List.mem_map_of_mem Prod.fst hq')
        rw [alistFind_smapInsert_ne q'.1 path (some lid) m.active_class_loaders hne]
        exact hdisj q' (List.mem_cons_of_mem _ hq'))
    obtain ⟨hsort2, hperm2⟩ := ihs
    refine ⟨hsort2, hperm2.trans ?_⟩
    have hA := (smapInsert_perm_cons path (some lid)
      m.active_class_loaders hfind).append_right (rest.map (fun p => (p.1, some p.2)))
    refine hA.trans ?_
    simp only [List.cons_append, List.map_cons]
    exact List.perm_middle.symm

/-- Claim C2, counterexample: with libraries loaded in the order "b" then
"a" and the class available in both, the one-argument create walk selects
the loader of "a" (map key order), while the insertion-order walk the claim
describes would select the loader of "b". -/
theorem multi_create_order_counterexample :
    MultiLibraryClassLoader.getClassLoaderForClass
        (multiLoadAll ⟨false, []⟩ [("b", 0), ("a", 1)]) (fun _ _ => true) "C" = some 1 ∧
    getClassLoaderForClassInsertionOrder [("b", 0), ("a", 1)] (fun _ _ => true) "C"
        = some 0 ∧
    (some 1 : LoaderPtr) ≠ some 0 := by
  refine ⟨by decide, by decide, by decide⟩

/-- Claim C2 (amended): the one-argument create walk visits the child
loaders in ascending library-path order - the iteration order of the
path-keyed std::map - rather than insertion order, and uses the first child
that reports the class available: the walk runs over the map entries, which
are strictly sorted by path and are exactly one binding per loaded
library. -/
theorem multi_create_walk_order (od : Bool) (ins : List (String × LoaderId))
    (avail : LoaderId → String → Bool) (class_name : String)
    (hnd : (ins.map Prod.fst).Nodup) :
    (multiLoadAll ⟨od, []⟩ ins).getClassLoaderForClass avail class_name =
      walkForClass avail class_name
        ((multiLoadAll ⟨od, []⟩ ins).active_class_loaders.map (fun p => p.2)) ∧
    (multiLoadAll ⟨od, []⟩ ins).active_class_loaders.Pairwise (fun a b => a.1.data < b.1.data) ∧
    (multiLoadAll ⟨od, []⟩ ins).active_class_loaders.Perm
      (ins.map (fun p => (p.1, some p.2))) := by
  obtain ⟨h1, h2⟩ := multiLoadAll_spec ins ⟨od, []⟩ hnd (by simp) (by simp)
    (by intro q hq; rfl)
  exact ⟨rfl, h1, by simpa using h2⟩

/-- Claim C2, witness: loading "b" then "a" gives a map sorted by path
holding exactly those two bindings, and the walk follows that order. -/
theorem multi_create_walk_order_witness :
    (([("b", 0), ("a", 1)].map Prod.fst).Nodup : Prop) ∧
    ((multiLoadAll ⟨false, []⟩ [("b", 0), ("a", 1)]).getClassLoaderForClass
        (fun _ _ => true) "C" =
      walkForClass (fun _ _ => true) "C"
        ((multiLoadAll ⟨false, []⟩ [("b", 0), ("a", 1)]).active_class_loaders.map
          (fun p => p.2)) ∧
      (multiLoadAll ⟨false, []⟩ [("b", 0), ("a", 1)]).active_class_loaders.Pairwise
        (fun a b => a.1.data < b.1.data) ∧
      (multiLoadAll ⟨false, []⟩ [("b", 0), ("a", 1)]).active_class_loaders.Perm
        ([("b", 0), ("a", 1)].map (fun p => (p.1, some p.2)))) :=
  ⟨by decide, multi_create_walk_order false [("b", 0), ("a", 1)]
    (fun _ _ => true) "C" (by decide)⟩

end ClassLoaderProof

